import Mathlib

/-!
Verification of the Vuzix liblc3 JNI binding layer
(`app/src/main/cpp/lc3_jni.cpp`) against its natural-language
specification.

The repository's own code is the JNI marshaling layer; the LC3 codec
library it links against (`lc3.h`: `lc3_encoder_size`,
`lc3_setup_encoder`, `lc3_encode`, `lc3_decoder_size`,
`lc3_setup_decoder`, `lc3_decode`) is an external collaborator whose
sources are not part of the repository tree. The codec functions are
therefore modelled from the specification's boundary contract (spec
sections 3, 4, 6 and 7), each with a doc comment starting
`Modelled from the spec:`. The four exported JNI functions and the JNI
environment primitives they use are embedded directly from
`lc3_jni.cpp`, line by line.

Conventions of the embedding:
- a `jbyteArray` reference is `Option (List Int)`: `none` is the null
  reference, `some bytes` a live array with the given contents;
- a codec handle (`jlong` holding a native pointer) is
  `Option lc3_encoder` / `Option lc3_decoder`: `none` is the
  null/zero handle, `some st` a handle to instance state `st`;
- JNI calls whose behaviour is undefined (GetArrayLength or
  GetByteArrayElements on a null reference) make the whole embedded
  call return `none`;
- the native heap used by create/free is a list of address/block
  pairs; `malloc` returns a fresh nonzero address.
-/

/-! ## JNI environment primitives -/

/-- GetByteArrayElements: pins the array and yields its contents.
Calling it on a null array reference is undefined behaviour in JNI,
modelled as `none`. The source only calls it unguarded on the
`pcm_`/`out_` arrays; for decode's `in_` it is guarded by a null test. -/
def GetByteArrayElements : Option (List Int) → Option (List Int)
  | none => none
  | some a => some a

/-- GetArrayLength: yields the length of the array. Calling it on a
null array reference is undefined behaviour in JNI, modelled as
`none`. -/
def GetArrayLength : Option (List Int) → Option Int
  | none => none
  | some a => some (a.length : Int)

/-- Release mode of ReleaseByteArrayElements: `commit` is mode `0`
(copy the possibly modified pinned buffer back into the array),
`abort` is `JNI_ABORT` (discard the pinned buffer, the array keeps its
previous contents). -/
inductive ReleaseMode where
  | commit
  | abort
deriving Repr, DecidableEq

/-- ReleaseByteArrayElements: final contents of the array after the
pinned buffer `pinned` is released with the given mode. -/
def ReleaseByteArrayElements : Option (List Int) → List Int → ReleaseMode → Option (List Int)
  | none, _, _ => none
  | some a, _, ReleaseMode.abort => some a
  | some _, pinned, ReleaseMode.commit => some pinned

/-! ## Codec model, from the specification

The LC3 library sources are not in the repository; the functions
declared by `lc3.h` are modelled from the spec's data model (§3),
component contracts (§4), boundary contract (§6) and error taxonomy
(§7). -/

/-- Modelled from the spec: supported frame durations, `at minimum
\x7b7500 µs, 10000 µs\x7d` (§6). -/
def lc3_frame_duration_ok (dtUs : Int) : Bool :=
  dtUs == 7500 || dtUs == 10000

/-- Modelled from the spec: the fixed small set of supported sample
rates, `e.g. 8000/16000/24000/32000/48000 Hz` (§6). -/
def lc3_samplerate_ok (srHz : Int) : Bool :=
  srHz == 8000 || srHz == 16000 || srHz == 24000 || srHz == 32000 || srHz == 48000

/-- Modelled from the spec: `all three must form a supported
combination; invalid combinations fail at construction` (§3,
CodecConfig invariant). -/
def lc3_config_ok (dtUs srHz srPcmHz : Int) : Bool :=
  lc3_frame_duration_ok dtUs && lc3_samplerate_ok srHz && lc3_samplerate_ok srPcmHz

/-- Modelled from the spec: the sample format enumeration
`\x7bint16, int24, float32\x7d` (§6), encoded 0/1/2 as by the C enum
`lc3_pcm_format`. -/
def lc3_pcm_format_ok (fmt : Int) : Bool :=
  fmt == 0 || fmt == 1 || fmt == 2

/-- Byte width of one sample in the external PCM representation:
int16 is 2 bytes, int24 is 3 bytes, float32 is 4 bytes. -/
def sampleWidth (fmt : Int) : Nat :=
  if fmt == 0 then 2 else if fmt == 1 then 3 else 4

/-- Number of samples in one frame: frame duration times PCM rate. -/
def frameSamples (dtUs srPcmHz : Int) : Nat :=
  ((dtUs * srPcmHz) / 1000000).toNat

/-- Modelled from the spec: codec-defined minimum compressed frame
size for §4.2's `BufferTooSmall` check. -/
def LC3_MIN_FRAME_BYTES : Int := 20

/-- Modelled from the spec: maximum number of compressed bytes the
encoder will produce for one frame. -/
def LC3_MAX_FRAME_BYTES : Int := 400

/-- Byte `k` (little-endian) of the integer `v`. -/
def intByte (v : Int) (k : Nat) : Int :=
  (v / (256 ^ k : Int)) % 256

/-- Modelled from the spec: PCM Adapter `toInternal` (§4.4) — reads
`n` samples from a strided caller buffer into the internal canonical
representation. `stride` is the byte distance between consecutive
samples. -/
def toInternal (buf : List Int) (fmt stride : Int) (n : Nat) : List Int :=
  (List.range n).map fun j =>
    (List.range (sampleWidth fmt)).foldl
      (fun acc k => acc + 256 ^ k * (buf.getD (j * stride.toNat + k) 0 % 256)) 0

/-- Write the bytes of one sample value at byte offset `off` of the
buffer; positions beyond the end of the buffer are dropped
(`List.set` out of range is the identity). -/
def writeSample (buf : List Int) (off w : Nat) (v : Int) : List Int :=
  (List.range w).foldl (fun b k => b.set (off + k) (intByte v k)) buf

/-- Modelled from the spec: PCM Adapter `fromInternal` (§4.4) — writes
the internal samples into the caller buffer in the requested format
and stride. -/
def fromInternal (samples : List Int) (fmt stride : Int) (buf : List Int) : List Int :=
  (List.range samples.length).foldl
    (fun b j => writeSample b (j * stride.toNat) (sampleWidth fmt) (samples.getD j 0)) buf

/-- Overlay a compressed payload at the start of the output buffer. -/
def writeBytes (out payload : List Int) : List Int :=
  (List.range payload.length).foldl (fun b i => b.set i (payload.getD i 0)) out

/-- Modelled from the spec: the bit-packing stage of §4.2's pipeline
(windowing, transform, quantization, packing are unspecified
internals); a deterministic function of the encoder history and the
current samples producing exactly `nb` bytes. -/
def packBytes (hist samples : List Int) (nb : Nat) : List Int :=
  (List.range nb).map fun i => (hist.sum + samples.sum + (i : Int)) % 256

/-- Modelled from the spec: per-instance encoder state (§3,
EncoderState): configuration, fixed history of past samples, frame
counter. -/
structure lc3_encoder where
  dtUs : Int
  srHz : Int
  srPcmHz : Int
  history : List Int
  ctr : Nat
deriving Repr, DecidableEq

/-- Modelled from the spec: per-instance decoder state (§3,
DecoderState): configuration plus concealment state (last good frame
held for packet-loss concealment). -/
structure lc3_decoder where
  dtUs : Int
  srHz : Int
  srPcmHz : Int
  history : List Int
deriving Repr, DecidableEq

/-- Modelled from the spec: `lc3_encoder_size` = §4.1's
`size_for(config)`; a fixed footprint for supported pairs, and the
failure value 0 for unsupported ones. -/
def lc3_encoder_size (dtUs srHz : Int) : Nat :=
  if lc3_frame_duration_ok dtUs && lc3_samplerate_ok srHz then
    16 + 2 * frameSamples dtUs srHz
  else 0

/-- Modelled from the spec: `lc3_decoder_size`, symmetric to the
encoder size. -/
def lc3_decoder_size (dtUs srHz : Int) : Nat :=
  if lc3_frame_duration_ok dtUs && lc3_samplerate_ok srHz then
    16 + 3 * frameSamples dtUs srHz
  else 0

/-- Modelled from the spec: construction of a fresh encoder state;
fails (`none`) for unsupported configurations (§3 invariant, §6
`UnsupportedConfig`). -/
def lc3_new_encoder (dtUs srHz srPcmHz : Int) : Option lc3_encoder :=
  if lc3_config_ok dtUs srHz srPcmHz then
    some { dtUs := dtUs, srHz := srHz, srPcmHz := srPcmHz, history := [], ctr := 0 }
  else none

/-- Modelled from the spec: construction of a fresh decoder state. -/
def lc3_new_decoder (dtUs srHz srPcmHz : Int) : Option lc3_decoder :=
  if lc3_config_ok dtUs srHz srPcmHz then
    some { dtUs := dtUs, srHz := srHz, srPcmHz := srPcmHz, history := [] }
  else none

/-- Modelled from the spec: `lc3_encode` on a live (non-null) encoder.
Per §4.2 and §7: `UnsupportedFormat` and `BufferTooSmall` are
call-local validation failures signalled by a negative return with the
state untouched; on success the compressed payload (at most the
capacity, at most the codec maximum) is written at the start of the
output buffer, the byte count is returned, and the history advances by
one frame. -/
def lc3_encode_st (e : lc3_encoder) (fmt : Int) (pcm : List Int) (stride nbytes : Int)
    (out : List Int) : Int × List Int × lc3_encoder :=
  if lc3_pcm_format_ok fmt then
    if nbytes < LC3_MIN_FRAME_BYTES then (-1, out, e)
    else
      let samples := toInternal pcm fmt stride (frameSamples e.dtUs e.srPcmHz)
      let nb := min nbytes LC3_MAX_FRAME_BYTES
      (nb, writeBytes out (packBytes e.history samples nb.toNat),
        { e with history := samples, ctr := e.ctr + 1 })
  else (-1, out, e)

/-- Modelled from the spec: `lc3_encode` including the null-handle
case, which is an error signalled by a negative return (§6: negative
return is reserved for error signaling). -/
def lc3_encode : Option lc3_encoder → Int → List Int → Int → Int → List Int →
    Int × List Int × Option lc3_encoder
  | none, _, _, _, _, out => (-1, out, none)
  | some e, fmt, pcm, stride, nbytes, out =>
      let r := lc3_encode_st e fmt pcm stride nbytes out
      (r.1, r.2.1, some r.2.2)

/-- Modelled from the spec: the concealment frame synthesized from
decoder history (§4.3: spectral-envelope hold), one full frame of
samples. -/
def plcFrame (d : lc3_decoder) : List Int :=
  (List.range (frameSamples d.dtUs d.srPcmHz)).map fun j => d.history.getD j 0

/-- Modelled from the spec: the genuine decode of a well-formed
payload (§4.3: unpack, dequantize, inverse transform — unspecified
internals, a deterministic function of history and payload), one full
frame of samples. -/
def unpackFrame (d : lc3_decoder) (inb : List Int) : List Int :=
  (List.range (frameSamples d.dtUs d.srPcmHz)).map fun j =>
    d.history.getD j 0 + inb.sum % 256

/-- Modelled from the spec: the structural integrity check of §4.3 —
a frame is malformed when its declared sub-block length (first byte)
exceeds the remaining buffer. -/
def frameMalformed (inb : List Int) (nbytes : Int) : Bool :=
  (inb.headD 0) % 256 > nbytes - 1

/-- Modelled from the spec: `lc3_decode` on a live decoder. Per §4.3,
§6 and §7: an unsupported format is a call-local validation failure
(negative return, state untouched); an absent (null) or zero-length
input triggers packet-loss concealment, a designed success path
returning 0; a malformed frame returns a nonzero status while
concealment output is still produced; a well-formed frame decodes
genuinely and returns 0. All non-error paths write one full frame
through the PCM adapter and advance the history. -/
def lc3_decode_st (d : lc3_decoder) (inp : Option (List Int)) (nbytes fmt : Int)
    (pcm : List Int) (stride : Int) : Int × List Int × lc3_decoder :=
  if lc3_pcm_format_ok fmt then
    match inp with
    | none =>
        let f := plcFrame d
        (0, fromInternal f fmt stride pcm, { d with history := f })
    | some inb =>
        if nbytes == 0 then
          let f := plcFrame d
          (0, fromInternal f fmt stride pcm, { d with history := f })
        else if frameMalformed inb nbytes then
          let f := plcFrame d
          (1, fromInternal f fmt stride pcm, { d with history := f })
        else
          let f := unpackFrame d (inb.take nbytes.toNat)
          (0, fromInternal f fmt stride pcm, { d with history := f })
  else (-1, pcm, d)

/-- Modelled from the spec: `lc3_decode` including the null-handle
case, an error signalled by a negative return. -/
def lc3_decode : Option lc3_decoder → Option (List Int) → Int → Int → List Int → Int →
    Int × List Int × Option lc3_decoder
  | none, _, _, _, pcm, _ => (-1, pcm, none)
  | some d, inp, nbytes, fmt, pcm, stride =>
      let r := lc3_decode_st d inp nbytes fmt pcm stride
      (r.1, r.2.1, some r.2.2)

/-! ## Native heap, for create and free -/

/-- Contents of one allocated native block: raw (malloc result not
yet set up), or a set-up encoder or decoder instance. -/
inductive BlockVal where
  | raw (sz : Nat)
  | enc (e : lc3_encoder)
  | dec (d : lc3_decoder)
deriving Repr, DecidableEq

/-- The native heap: a fresh-address counter and the list of
allocated blocks, newest first. Address 0 is never allocated; it is
the null pointer / null handle. -/
structure NativeHeap where
  nextAddr : Nat
  blocks : List (Nat × BlockVal)
deriving Repr, DecidableEq

/-- malloc: allocate a raw block at a fresh nonzero address. -/
def malloc (h : NativeHeap) (sz : Nat) : NativeHeap × Nat :=
  let a := h.nextAddr + 1
  ({ nextAddr := a, blocks := (a, BlockVal.raw sz) :: h.blocks }, a)

/-- free: release the block at the given address. -/
def free (h : NativeHeap) (a : Nat) : NativeHeap :=
  { h with blocks := h.blocks.filter fun b => b.1 != a }

/-- Replace the contents of the block at address `a`. -/
def storeBlock (h : NativeHeap) (a : Nat) (v : BlockVal) : NativeHeap :=
  { h with blocks := h.blocks.map fun b => if b.1 == a then (a, v) else b }

/-- Modelled from the spec: `lc3_setup_encoder` — initializes the
caller-allocated block `mem` with a fresh encoder state and returns
it (the same address), or returns the null pointer 0 when the
configuration is unsupported (§6 `UnsupportedConfig`) or `mem` is
null. -/
def lc3_setup_encoder (dtUs srHz srPcmHz : Int) (h : NativeHeap) (mem : Nat) :
    NativeHeap × Nat :=
  match lc3_new_encoder dtUs srHz srPcmHz with
  | some e => if mem != 0 then (storeBlock h mem (BlockVal.enc e), mem) else (h, 0)
  | none => (h, 0)

/-- Modelled from the spec: `lc3_setup_decoder`, symmetric. -/
def lc3_setup_decoder (dtUs srHz srPcmHz : Int) (h : NativeHeap) (mem : Nat) :
    NativeHeap × Nat :=
  match lc3_new_decoder dtUs srHz srPcmHz with
  | some d => if mem != 0 then (storeBlock h mem (BlockVal.dec d), mem) else (h, 0)
  | none => (h, 0)

/-! ## The JNI wrapper functions, embedded from lc3_jni.cpp -/

/-- `Java_com_vuzix_jnilc3_Lc3Codec_createEncoder` (lc3_jni.cpp
lines 8 to 14): `sz = lc3_encoder_size(dtUs, srHz); mem = malloc(sz);
enc = lc3_setup_encoder(dtUs, srHz, srPcmHz, mem); return enc;` —
returns the new heap and the handle (0 when setup failed; the raw
block is then leaked, exactly as in the source). -/
def Java_com_vuzix_jnilc3_Lc3Codec_createEncoder (h : NativeHeap)
    (dtUs srHz srPcmHz : Int) : NativeHeap × Nat :=
  let sz := lc3_encoder_size dtUs srHz
  let m := malloc h sz
  lc3_setup_encoder dtUs srHz srPcmHz m.1 m.2

/-- `Java_com_vuzix_jnilc3_Lc3Codec_freeEncoder` (lc3_jni.cpp lines
16 to 21): `if (handle) \x7b free(reinterpret_cast<void*>(handle)); \x7d`. -/
def Java_com_vuzix_jnilc3_Lc3Codec_freeEncoder (h : NativeHeap) (handle : Nat) :
    NativeHeap :=
  if handle != 0 then free h handle else h

/-- `Java_com_vuzix_jnilc3_Lc3Codec_createDecoder` (lc3_jni.cpp lines
48 to 56), symmetric to createEncoder. -/
def Java_com_vuzix_jnilc3_Lc3Codec_createDecoder (h : NativeHeap)
    (dtUs srHz srPcmHz : Int) : NativeHeap × Nat :=
  let sz := lc3_decoder_size dtUs srHz
  let m := malloc h sz
  lc3_setup_decoder dtUs srHz srPcmHz m.1 m.2

/-- `Java_com_vuzix_jnilc3_Lc3Codec_freeDecoder` (lc3_jni.cpp lines
58 to 63): `if (handle) \x7b free(reinterpret_cast<void*>(handle)); \x7d`. -/
def Java_com_vuzix_jnilc3_Lc3Codec_freeDecoder (h : NativeHeap) (handle : Nat) :
    NativeHeap :=
  if handle != 0 then free h handle else h

/-- Observable outcome of one call to the encode wrapper: the
returned int, the final contents of the two Java arrays after
release, and the encoder state after the call. -/
structure EncodeCall where
  ret : Int
  pcmArr : Option (List Int)
  outArr : Option (List Int)
  enc : Option lc3_encoder
deriving Repr, DecidableEq

/-- `Java_com_vuzix_jnilc3_Lc3Codec_encode` (lc3_jni.cpp lines 28 to
45), embedded line by line:
`pcm = GetByteArrayElements(pcm_); out = GetByteArrayElements(out_);
nbytes = GetArrayLength(out_);
ret = lc3_encode(enc, fmt, pcm, stride, nbytes, out);
ReleaseByteArrayElements(pcm_, pcm, JNI_ABORT);
ReleaseByteArrayElements(out_, out, 0); return ret;`
A null `pcm_` or `out_` makes a JNI call undefined, hence `none`. -/
def Java_com_vuzix_jnilc3_Lc3Codec_encode (handle : Option lc3_encoder) (fmt_ : Int)
    (pcm_ : Option (List Int)) (stride : Int) (out_ : Option (List Int)) :
    Option EncodeCall :=
  match GetByteArrayElements pcm_, GetByteArrayElements out_, GetArrayLength out_ with
  | some pcm, some out, some nbytes =>
      let r := lc3_encode handle fmt_ pcm stride nbytes out
      some { ret := r.1,
             pcmArr := ReleaseByteArrayElements pcm_ pcm ReleaseMode.abort,
             outArr := ReleaseByteArrayElements out_ r.2.1 ReleaseMode.commit,
             enc := r.2.2 }
  | _, _, _ => none

/-- Observable outcome of one call to the decode wrapper. -/
structure DecodeCall where
  ret : Int
  inArr : Option (List Int)
  pcmArr : Option (List Int)
  dec : Option lc3_decoder
deriving Repr, DecidableEq

/-- `Java_com_vuzix_jnilc3_Lc3Codec_decode` (lc3_jni.cpp lines 65 to
81), embedded line by line:
`in = in_ ? GetByteArrayElements(in_) : nullptr;
pcm = GetByteArrayElements(pcm_);
nbytes = GetArrayLength(in_);   // unguarded: undefined when in_ is null
ret = lc3_decode(dec, in, nbytes, fmt, pcm, stride);
ReleaseByteArrayElements(in_, in, JNI_ABORT);
ReleaseByteArrayElements(pcm_, pcm, 0); return ret;`
The source guards the pinning of `in_` with a null test, but then
calls `GetArrayLength(in_)` unconditionally, so a null `in_` still
reaches an undefined JNI call and the embedded call is `none`. -/
def Java_com_vuzix_jnilc3_Lc3Codec_decode (handle : Option lc3_decoder)
    (in_ : Option (List Int)) (fmt_ : Int) (pcm_ : Option (List Int)) (stride : Int) :
    Option DecodeCall :=
  match in_, GetByteArrayElements pcm_, GetArrayLength in_ with
  | some ia, some pcm, some nbytes =>
      let inPin := GetByteArrayElements (some ia)
      let r := lc3_decode handle inPin nbytes fmt_ pcm stride
      some { ret := r.1,
             inArr := ReleaseByteArrayElements (some ia) (inPin.getD []) ReleaseMode.abort,
             pcmArr := ReleaseByteArrayElements pcm_ r.2.1 ReleaseMode.commit,
             dec := r.2.2 }
  | _, _, _ => none

/-! ## Concrete instances used by witnesses and counterexamples -/

/-- A fresh encoder for configuration (10000 µs, 8000 Hz, 8000 Hz). -/
def enc0 : lc3_encoder :=
  { dtUs := 10000, srHz := 8000, srPcmHz := 8000, history := [], ctr := 0 }

/-- A fresh decoder for configuration (10000 µs, 8000 Hz, 8000 Hz). -/
def dec0 : lc3_decoder :=
  { dtUs := 10000, srHz := 8000, srPcmHz := 8000, history := [] }

/-- A 160-byte zeroed PCM buffer (80 int16 samples at stride 2). -/
def pcm160 : List Int := List.replicate 160 0

/-- A 20-byte zeroed output buffer. -/
def out20 : List Int := List.replicate 20 0

/-- A 10-byte output buffer, below the codec minimum frame size. -/
def out10 : List Int := List.replicate 10 0

/-- A 20-byte all-zero compressed input frame. -/
def in20 : List Int := List.replicate 20 0

/-- Two small PCM frames for the determinism witness. -/
def frames2 : List (List Int) := [[1, 2, 3], [4, 5, 6]]

/-- A small nonempty heap for the free witnesses. -/
def heap0 : NativeHeap :=
  { nextAddr := 2, blocks := [(1, BlockVal.raw 4), (2, BlockVal.raw 8)] }

/-! ## Claim theorems -/

/-- Return-value bound of the modelled `lc3_encode`: with a
nonnegative capacity, the return never exceeds the capacity, and a
negative return happens only for the three error conditions (null
handle, unsupported format, capacity below the codec minimum). -/
theorem lc3_encode_return_bound (handle : Option lc3_encoder) (fmt : Int) (p : List Int)
    (stride nbytes : Int) (out : List Int) (h0 : 0 ≤ nbytes) :
    (lc3_encode handle fmt p stride nbytes out).1 ≤ nbytes ∧
    ((lc3_encode handle fmt p stride nbytes out).1 < 0 →
      handle = none ∨ lc3_pcm_format_ok fmt = false ∨ nbytes < LC3_MIN_FRAME_BYTES) := by
  match handle with
  | none =>
    refine ⟨?_, fun _ => Or.inl rfl⟩
    show (-1 : Int) ≤ nbytes
    omega
  | some e =>
    by_cases hf : lc3_pcm_format_ok fmt
    · by_cases hn : nbytes < LC3_MIN_FRAME_BYTES
      · refine ⟨?_, fun _ => Or.inr (Or.inr hn)⟩
        simp [lc3_encode, lc3_encode_st, hf, hn]
        exact le_trans (by norm_num) h0
      · constructor
        · simp [lc3_encode, lc3_encode_st, hf, hn]
        · intro hc
          exfalso
          have hge : 0 ≤ (lc3_encode (some e) fmt p stride nbytes out).1 := by
            simp [lc3_encode, lc3_encode_st, hf, hn]
            exact ⟨h0, by norm_num [LC3_MAX_FRAME_BYTES]⟩
          exact absurd hc (not_lt.mpr hge)
    · refine ⟨?_, fun _ => Or.inr (Or.inl (Bool.not_eq_true _ ▸ hf))⟩
      simp [lc3_encode, lc3_encode_st, hf]
      exact le_trans (by norm_num) h0

/-- C2: every encode call uses the full length of the output array as
the capacity handed to the codec, the returned value never exceeds
that length, and a negative return happens only under an error
condition. -/
theorem C2_encode_full_capacity (handle : Option lc3_encoder) (fmt stride : Int)
    (p o : List Int) :
    ∃ r, Java_com_vuzix_jnilc3_Lc3Codec_encode handle fmt (some p) stride (some o)
        = some r ∧
      r.ret = (lc3_encode handle fmt p stride (o.length : Int) o).1 ∧
      r.ret ≤ (o.length : Int) ∧
      (r.ret < 0 →
        handle = none ∨ lc3_pcm_format_ok fmt = false ∨
          (o.length : Int) < LC3_MIN_FRAME_BYTES) := by
  have hb := lc3_encode_return_bound handle fmt p stride (o.length : Int) o
    (Int.natCast_nonneg _)
  exact ⟨_, rfl, rfl, hb.1, hb.2⟩

/-- C9: the encode wrapper releases the pinned PCM input with
JNI_ABORT so the caller's input array is unchanged when the call
returns, and the decode wrapper likewise leaves the compressed input
array unchanged; only the respective output arrays receive the
written-back data from the codec call. -/
theorem C9_inputs_unchanged (he : Option lc3_encoder) (hd : Option lc3_decoder)
    (fmtE strideE fmtD strideD : Int) (p o i q : List Int) :
    (∃ r, Java_com_vuzix_jnilc3_Lc3Codec_encode he fmtE (some p) strideE (some o)
        = some r ∧
      r.pcmArr = some p ∧
      r.outArr = some (lc3_encode he fmtE p strideE (o.length : Int) o).2.1) ∧
    (∃ s, Java_com_vuzix_jnilc3_Lc3Codec_decode hd (some i) fmtD (some q) strideD
        = some s ∧
      s.inArr = some i ∧
      s.pcmArr = some (lc3_decode hd (some i) (i.length : Int) fmtD q strideD).2.1) :=
  ⟨⟨_, rfl, rfl, rfl⟩, ⟨_, rfl, rfl, rfl⟩⟩

/-- C10: the wrappers are pure forwarders — the int returned to Java
is exactly the value returned by the modelled `lc3_encode` and
`lc3_decode` on the marshaled buffers, with handle, format, stride
and the array lengths passed through unmodified and no extra
validation, clamping or translation in between. -/
theorem C10_pure_forwarding (he : Option lc3_encoder) (hd : Option lc3_decoder)
    (fmtE strideE fmtD strideD : Int) (p o i q : List Int) :
    (Java_com_vuzix_jnilc3_Lc3Codec_encode he fmtE (some p) strideE (some o)).map
        (fun r => r.ret)
      = some (lc3_encode he fmtE p strideE (o.length : Int) o).1 ∧
    (Java_com_vuzix_jnilc3_Lc3Codec_decode hd (some i) fmtD (some q) strideD).map
        (fun s => s.ret)
      = some (lc3_decode hd (some i) (i.length : Int) fmtD q strideD).1 :=
  ⟨rfl, rfl⟩

/-- C5: an encode or decode call whose sample-format argument lies
outside the enumerated set returns the error value -1 while the
instance state and all arrays are left untouched — a call-local,
recoverable input-validation failure. -/
theorem C5_unsupported_format (e : lc3_encoder) (d : lc3_decoder)
    (fmt strideE strideD : Int) (p o i q : List Int)
    (hf : lc3_pcm_format_ok fmt = false) :
    (∃ r, Java_com_vuzix_jnilc3_Lc3Codec_encode (some e) fmt (some p) strideE (some o)
        = some r ∧
      r.ret = -1 ∧ r.enc = some e ∧ r.outArr = some o ∧ r.pcmArr = some p) ∧
    (∃ s, Java_com_vuzix_jnilc3_Lc3Codec_decode (some d) (some i) fmt (some q) strideD
        = some s ∧
      s.ret = -1 ∧ s.dec = some d ∧ s.pcmArr = some q ∧ s.inArr = some i) := by
  refine ⟨⟨_, rfl, ?_, ?_, ?_, rfl⟩, ⟨_, rfl, ?_, ?_, ?_, rfl⟩⟩ <;>
    simp [lc3_encode, lc3_encode_st, lc3_decode, lc3_decode_st, hf,
      ReleaseByteArrayElements]

/-- C5 witness: format 3 is outside the enumerated set, and the
concrete encode and decode calls with it fail as the theorem states. -/
theorem C5_unsupported_format_witness :
    lc3_pcm_format_ok 3 = false ∧
    ((∃ r, Java_com_vuzix_jnilc3_Lc3Codec_encode (some enc0) 3 (some pcm160) 2 (some out20)
        = some r ∧
      r.ret = -1 ∧ r.enc = some enc0 ∧ r.outArr = some out20 ∧ r.pcmArr = some pcm160) ∧
    (∃ s, Java_com_vuzix_jnilc3_Lc3Codec_decode (some dec0) (some in20) 3 (some pcm160) 2
        = some s ∧
      s.ret = -1 ∧ s.dec = some dec0 ∧ s.pcmArr = some pcm160 ∧ s.inArr = some in20)) :=
  ⟨by decide, C5_unsupported_format enc0 dec0 3 2 2 pcm160 out20 in20 pcm160 (by decide)⟩

/-- C8: an encode call whose output array is shorter than the codec
minimum frame size returns the error value -1 and is atomic — the
encoder state, the output array and the input array are all left
exactly as they were. -/
theorem C8_buffer_too_small_atomic (e : lc3_encoder) (fmt stride : Int) (p o : List Int)
    (hlen : (o.length : Int) < LC3_MIN_FRAME_BYTES) :
    ∃ r, Java_com_vuzix_jnilc3_Lc3Codec_encode (some e) fmt (some p) stride (some o)
        = some r ∧
      r.ret = -1 ∧ r.enc = some e ∧ r.outArr = some o ∧ r.pcmArr = some p := by
  refine ⟨_, rfl, ?_, ?_, ?_, rfl⟩ <;>
    by_cases hf : lc3_pcm_format_ok fmt <;>
      simp [lc3_encode, lc3_encode_st, hf, hlen, ReleaseByteArrayElements]

/-- C8 witness: a 10-byte output buffer is below the 20-byte minimum,
and the concrete encode call with it fails atomically as the theorem
states. -/
theorem C8_buffer_too_small_witness :
    ((out10.length : Int) < LC3_MIN_FRAME_BYTES) ∧
    (∃ r, Java_com_vuzix_jnilc3_Lc3Codec_encode (some enc0) 0 (some pcm160) 2 (some out10)
        = some r ∧
      r.ret = -1 ∧ r.enc = some enc0 ∧ r.outArr = some out10 ∧ r.pcmArr = some pcm160) :=
  ⟨by decide, C8_buffer_too_small_atomic enc0 0 2 pcm160 out10 (by decide)⟩

/-- C3: freeEncoder and freeDecoder are no-ops on the null (zero)
handle, iterating them on the null handle any number of times leaves
the heap unchanged, and on a nonzero handle they release exactly the
block at that address, keeping every other block. -/
theorem C3_free_null_noop_release (h : NativeHeap) (n a : Nat) (ha : a ≠ 0) :
    Java_com_vuzix_jnilc3_Lc3Codec_freeEncoder h 0 = h ∧
    Java_com_vuzix_jnilc3_Lc3Codec_freeDecoder h 0 = h ∧
    (fun s => Java_com_vuzix_jnilc3_Lc3Codec_freeEncoder s 0)^[n] h = h ∧
    (fun s => Java_com_vuzix_jnilc3_Lc3Codec_freeDecoder s 0)^[n] h = h ∧
    (Java_com_vuzix_jnilc3_Lc3Codec_freeEncoder h a).blocks
      = h.blocks.filter (fun b => b.1 != a) ∧
    (Java_com_vuzix_jnilc3_Lc3Codec_freeDecoder h a).blocks
      = h.blocks.filter (fun b => b.1 != a) := by
  have hiter : ∀ m : Nat, (fun s => Java_com_vuzix_jnilc3_Lc3Codec_freeEncoder s 0)^[m] h = h := by
    intro m
    induction m with
    | zero => rfl
    | succ k ih => rw [Function.iterate_succ_apply]; exact ih
  have hiter2 : ∀ m : Nat, (fun s => Java_com_vuzix_jnilc3_Lc3Codec_freeDecoder s 0)^[m] h = h := by
    intro m
    induction m with
    | zero => rfl
    | succ k ih => rw [Function.iterate_succ_apply]; exact ih
  refine ⟨rfl, rfl, hiter n, hiter2 n, ?_, ?_⟩ <;>
    simp [Java_com_vuzix_jnilc3_Lc3Codec_freeEncoder,
      Java_com_vuzix_jnilc3_Lc3Codec_freeDecoder, free, ha]

/-- C3 witness: on the concrete two-block heap, freeing the null
handle three times changes nothing and freeing handle 2 removes
exactly the block at address 2. -/
theorem C3_free_witness :
    (2 : Nat) ≠ 0 ∧
    (Java_com_vuzix_jnilc3_Lc3Codec_freeEncoder heap0 0 = heap0 ∧
    Java_com_vuzix_jnilc3_Lc3Codec_freeDecoder heap0 0 = heap0 ∧
    (fun s => Java_com_vuzix_jnilc3_Lc3Codec_freeEncoder s 0)^[3] heap0 = heap0 ∧
    (fun s => Java_com_vuzix_jnilc3_Lc3Codec_freeDecoder s 0)^[3] heap0 = heap0 ∧
    (Java_com_vuzix_jnilc3_Lc3Codec_freeEncoder heap0 2).blocks
      = heap0.blocks.filter (fun b => b.1 != 2) ∧
    (Java_com_vuzix_jnilc3_Lc3Codec_freeDecoder heap0 2).blocks
      = heap0.blocks.filter (fun b => b.1 != 2)) :=
  ⟨by decide, C3_free_null_noop_release heap0 3 2 (by decide)⟩

/-- C4: for a parameter triple that is not a supported combination,
createEncoder and createDecoder return the null handle 0, and the
only change to the native heap is the leaked raw allocation — no
encoder or decoder instance is constructed. -/
theorem C4_unsupported_config_null_handle (h : NativeHeap) (dtUs srHz srPcmHz : Int)
    (hbad : lc3_config_ok dtUs srHz srPcmHz = false) :
    (Java_com_vuzix_jnilc3_Lc3Codec_createEncoder h dtUs srHz srPcmHz).2 = 0 ∧
    (Java_com_vuzix_jnilc3_Lc3Codec_createEncoder h dtUs srHz srPcmHz).1.blocks
      = (h.nextAddr + 1, BlockVal.raw (lc3_encoder_size dtUs srHz)) :: h.blocks ∧
    (Java_com_vuzix_jnilc3_Lc3Codec_createDecoder h dtUs srHz srPcmHz).2 = 0 ∧
    (Java_com_vuzix_jnilc3_Lc3Codec_createDecoder h dtUs srHz srPcmHz).1.blocks
      = (h.nextAddr + 1, BlockVal.raw (lc3_decoder_size dtUs srHz)) :: h.blocks := by
  refine ⟨?_, ?_, ?_, ?_⟩ <;>
    simp [Java_com_vuzix_jnilc3_Lc3Codec_createEncoder,
      Java_com_vuzix_jnilc3_Lc3Codec_createDecoder, lc3_setup_encoder, lc3_setup_decoder,
      lc3_new_encoder, lc3_new_decoder, malloc, hbad]

/-- C4 witness: the frame duration 5000 µs is unsupported, and the
concrete construction calls on the two-block heap return the null
handle and leak one raw block, as the theorem states. -/
theorem C4_unsupported_config_witness :
    lc3_config_ok 5000 8000 8000 = false ∧
    ((Java_com_vuzix_jnilc3_Lc3Codec_createEncoder heap0 5000 8000 8000).2 = 0 ∧
    (Java_com_vuzix_jnilc3_Lc3Codec_createEncoder heap0 5000 8000 8000).1.blocks
      = (heap0.nextAddr + 1, BlockVal.raw (lc3_encoder_size 5000 8000)) :: heap0.blocks ∧
    (Java_com_vuzix_jnilc3_Lc3Codec_createDecoder heap0 5000 8000 8000).2 = 0 ∧
    (Java_com_vuzix_jnilc3_Lc3Codec_createDecoder heap0 5000 8000 8000).1.blocks
      = (heap0.nextAddr + 1, BlockVal.raw (lc3_decoder_size 5000 8000)) :: heap0.blocks) :=
  ⟨by decide, C4_unsupported_config_null_handle heap0 5000 8000 8000 (by decide)⟩

/-- C1 counterexample: a decode call with an absent (null) input
array does not conceal and return 0 — the source calls
`GetArrayLength(in_)` unconditionally, an undefined JNI call on a
null reference, so the embedded call is undefined (`none`) instead of
producing a status and a PCM frame. -/
theorem C1_null_input_counterexample :
    Java_com_vuzix_jnilc3_Lc3Codec_decode (some dec0) none 0 (some pcm160) 2 = none := rfl

/-- C1 (amended): a decode call whose input array is non-null and of
zero length triggers packet-loss concealment — it returns status 0,
writes the full-length concealed frame (one entire frame of samples)
through the PCM adapter into the caller's output array, and advances
the concealment history. -/
theorem C1_zero_length_conceals (d : lc3_decoder) (fmt stride : Int) (q : List Int)
    (hf : lc3_pcm_format_ok fmt = true) :
    ∃ s, Java_com_vuzix_jnilc3_Lc3Codec_decode (some d) (some []) fmt (some q) stride
        = some s ∧
      s.ret = 0 ∧
      s.pcmArr = some (fromInternal (plcFrame d) fmt stride q) ∧
      s.dec = some { d with history := plcFrame d } ∧
      (plcFrame d).length = frameSamples d.dtUs d.srPcmHz := by
  refine ⟨_, rfl, ?_, ?_, ?_, ?_⟩
  · simp [lc3_decode, lc3_decode_st, hf, GetByteArrayElements]
  · simp [lc3_decode, lc3_decode_st, hf, GetByteArrayElements, ReleaseByteArrayElements]
  · simp [lc3_decode, lc3_decode_st, hf, GetByteArrayElements]
  · simp [plcFrame]

/-- C1 witness: the concrete zero-length decode call on the fresh
decoder conceals as the amended theorem states. -/
theorem C1_zero_length_witness :
    lc3_pcm_format_ok 0 = true ∧
    (∃ s, Java_com_vuzix_jnilc3_Lc3Codec_decode (some dec0) (some []) 0 (some pcm160) 2
        = some s ∧
      s.ret = 0 ∧
      s.pcmArr = some (fromInternal (plcFrame dec0) 0 2 pcm160) ∧
      s.dec = some { dec0 with history := plcFrame dec0 } ∧
      (plcFrame dec0).length = frameSamples dec0.dtUs dec0.srPcmHz) :=
  ⟨by decide, C1_zero_length_conceals dec0 0 2 pcm160 (by decide)⟩

/-- C6 counterexample: a concealed decode is not distinguishable from
a genuine decode through the call's observable result — on the fresh
decoder, the concealed call (empty input) and the genuine call
(well-formed 20-byte all-zero frame) return the same status 0 and
write the same bytes to the output array. -/
theorem C6_indistinguishable_counterexample :
    (Java_com_vuzix_jnilc3_Lc3Codec_decode (some dec0) (some []) 0 (some pcm160) 2).map
        (fun s => (s.ret, s.pcmArr))
      = (Java_com_vuzix_jnilc3_Lc3Codec_decode (some dec0) (some in20) 0 (some pcm160) 2).map
        (fun s => (s.ret, s.pcmArr)) ∧
    (Java_com_vuzix_jnilc3_Lc3Codec_decode (some dec0) (some []) 0 (some pcm160) 2).map
        (fun s => s.ret) = some 0 ∧
    (Java_com_vuzix_jnilc3_Lc3Codec_decode (some dec0) (some in20) 0 (some pcm160) 2).map
        (fun s => s.ret) = some 0 := ⟨rfl, rfl, rfl⟩

/-- C6 (amended): the status code does not separate concealment from
genuine decoding — a concealed call returns 0 exactly like a genuine
well-formed decode, so the caller can recognize concealment only from
having passed an empty buffer itself; what the status does separate
is malformed input, which returns the nonzero value 1, so no error is
silently swallowed. -/
theorem C6_concealed_status_same_as_genuine (d : lc3_decoder) (fmt stride : Int)
    (q inb : List Int) (hf : lc3_pcm_format_ok fmt = true)
    (hlen : (inb.length : Int) ≠ 0) :
    (Java_com_vuzix_jnilc3_Lc3Codec_decode (some d) (some []) fmt (some q) stride).map
        (fun s => s.ret) = some 0 ∧
    (frameMalformed inb (inb.length : Int) = false →
      (Java_com_vuzix_jnilc3_Lc3Codec_decode (some d) (some inb) fmt (some q) stride).map
        (fun s => s.ret) = some 0) ∧
    (frameMalformed inb (inb.length : Int) = true →
      (Java_com_vuzix_jnilc3_Lc3Codec_decode (some d) (some inb) fmt (some q) stride).map
        (fun s => s.ret) = some 1) := by
  refine ⟨?_, fun hwf => ?_, fun hmal => ?_⟩ <;>
    simp [Java_com_vuzix_jnilc3_Lc3Codec_decode, GetByteArrayElements, GetArrayLength,
      lc3_decode, lc3_decode_st, hf, hlen, *]

/-- C6 witness: on the fresh decoder with the 20-byte all-zero input,
the concealed call and the genuine call both return 0, and a
malformed variant would return 1, as the amended theorem states. -/
theorem C6_status_witness :
    lc3_pcm_format_ok 0 = true ∧ ((in20.length : Int) ≠ 0) ∧
    ((Java_com_vuzix_jnilc3_Lc3Codec_decode (some dec0) (some []) 0 (some pcm160) 2).map
        (fun s => s.ret) = some 0 ∧
    (frameMalformed in20 (in20.length : Int) = false →
      (Java_com_vuzix_jnilc3_Lc3Codec_decode (some dec0) (some in20) 0 (some pcm160) 2).map
        (fun s => s.ret) = some 0) ∧
    (frameMalformed in20 (in20.length : Int) = true →
      (Java_com_vuzix_jnilc3_Lc3Codec_decode (some dec0) (some in20) 0 (some pcm160) 2).map
        (fun s => s.ret) = some 1)) :=
  ⟨by decide, by decide,
    C6_concealed_status_same_as_genuine dec0 0 2 pcm160 in20 (by decide) (by decide)⟩

/-- Run a whole sequence of PCM frames through the encoder state
machine, collecting the compressed output buffer of each frame. -/
def encodeRun (e : lc3_encoder) (fmt stride nbytes : Int) (out : List Int) :
    List (List Int) → List (List Int)
  | [] => []
  | f :: fs =>
      let r := lc3_encode_st e fmt f stride nbytes out
      r.2.1 :: encodeRun r.2.2 fmt stride nbytes out fs

/-- C7: encoding is deterministic — two independent runs of the same
finite frame sequence, each starting from a freshly constructed
encoder for the same valid configuration, produce byte-identical
compressed output. -/
theorem C7_encode_deterministic (dtUs srHz srPcmHz : Int) (e1 e2 : lc3_encoder)
    (fmt stride nbytes : Int) (out : List Int) (frames : List (List Int))
    (h1 : lc3_new_encoder dtUs srHz srPcmHz = some e1)
    (h2 : lc3_new_encoder dtUs srHz srPcmHz = some e2) :
    encodeRun e1 fmt stride nbytes out frames = encodeRun e2 fmt stride nbytes out frames := by
  have he : e1 = e2 := Option.some.inj (h1.symm.trans h2)
  rw [he]

/-- C7 witness: two fresh encoders for (10000 µs, 8000 Hz, 8000 Hz)
produce identical output on the concrete two-frame sequence. -/
theorem C7_deterministic_witness :
    lc3_new_encoder 10000 8000 8000 = some enc0 ∧
    encodeRun enc0 0 2 20 out20 frames2 = encodeRun enc0 0 2 20 out20 frames2 :=
  ⟨by decide,
    C7_encode_deterministic 10000 8000 8000 enc0 enc0 0 2 20 out20 frames2
      (by decide) (by decide)⟩
